import Mathlib

/-!
Shallow embedding of the client-side connection state machine of
`ConnectionStateHandler` / `ConnectionStateCatchup` (connectionStateHandler.ts).

Modelling decisions, all taken from the source:
* `ConnectionState` has the three values the source distinguishes
  (`Disconnected`, `CatchingUp`, `Connected`).
* The quorum is external input, read through `quorumClients()`; it is modelled
  as an `Option (List String)` in an `Env` record supplied at each call, with
  `getMember c ≠ undefined` becoming list membership.
* The two one-shot `Timer`s are modelled by their `hasTimer` flag; the leave
  timer additionally carries a generation counter bumped at every `restart()`,
  so that "the timer was not restarted" is expressible.  A timer firing clears
  `hasTimer` before the callback body runs (one-shot semantics); a late
  callback (queued before cancellation) runs the body with the flag already
  clear.
* Every externally visible effect (connectionStateChanged, telemetry events,
  `logConnectionIssue`, the `WaitBeforeClientLeave` performance span, the
  mutation of `client.shouldHaveLeft`) is recorded in an event list.
* `assert` throws in the source; a failed assert is modelled by `ok = false`
  in the result, with the state mutations and events that happened before the
  failing assert retained.  Reachability (`Reachable`) only follows steps with
  `ok = true`: an assertion failure terminates the session.
-/

namespace FluidConn

inductive ConnectionState where
  | Disconnected
  | CatchingUp
  | Connected
deriving DecidableEq, Repr

inductive ConnectionMode where
  | read
  | write
deriving DecidableEq, Repr

/-- The four literal sources accepted by `applyForConnectedState`. -/
inductive ApplySource where
  | removeMemberEvent
  | addMemberEvent
  | timeout
  | containerSaved
deriving DecidableEq, Repr

def ApplySource.str : ApplySource → String
  | .removeMemberEvent => "removeMemberEvent"
  | .addMemberEvent => "addMemberEvent"
  | .timeout => "timeout"
  | .containerSaved => "containerSaved"

/-- The inputs the handler reads from its collaborators at a given call:
`quorumClients()` (possibly undefined) and `shouldClientJoinWrite()`. -/
structure Env where
  quorum : Option (List String)
  shouldClientJoinWrite : Bool
deriving DecidableEq, Repr

/-- The mutable fields of `ConnectionStateHandler`. -/
structure HandlerState where
  connectionState : ConnectionState
  clientId : Option String
  pendingClientId : Option String
  /-- `prevClientLeftTimer.hasTimer` -/
  prevClientLeftTimer : Bool
  /-- bumped each time `prevClientLeftTimer.restart()` is called -/
  prevClientLeftTimerGen : Nat
  /-- `joinOpTimer.hasTimer` -/
  joinOpTimer : Bool
  /-- whether `this.waitEvent` (the WaitBeforeClientLeave span) is set -/
  waitEvent : Bool
deriving DecidableEq, Repr

/-- Externally visible effects of a call. -/
inductive Event where
  /-- `handler.connectionStateChanged(value, oldState, reason)` -/
  | stateChanged (value oldState : ConnectionState) (reason : Option String)
  /-- `handler.logConnectionIssue(name)` with no modelled details -/
  | connectionIssue (name : String)
  /-- `handler.logConnectionIssue("NoJoinOp", details)` -/
  | noJoinOpIssue (quorumInitialized : Bool) (pendingClientId : Option String)
      (inQuorum : Bool) (waitingForLeaveOp : Bool)
  /-- `sendTelemetryEvent({eventName: "connectedStateRejected", category, details})` -/
  | connectedStateRejected (category : String) (source : String)
      (pendingClientId clientId : Option String)
      (waitingForLeaveOp inQuorum : Bool)
  /-- `sendTelemetryEvent({eventName: "noWaitOnDisconnected", details})` -/
  | noWaitOnDisconnected (inQuorum waitingForLeaveOp hadOutstandingOps : Bool)
  /-- `sendErrorEvent({eventName, ...})` -/
  | errorEvent (name : String)
  /-- `PerformanceEvent.start(..., "WaitBeforeClientLeave")` -/
  | waitSpanStart
  /-- `this.waitEvent?.end({source})` -/
  | waitSpanEnd (source : String)
  /-- `client.shouldHaveLeft = true` on the quorum member -/
  | setShouldHaveLeft (clientId : String)
deriving DecidableEq, Repr

structure StepResult where
  state : HandlerState
  events : List Event
  /-- `false` when an `assert` failed (the call threw at that point) -/
  ok : Bool
deriving DecidableEq, Repr

/-- `quorum?.getMember(c) !== undefined` for a known string `c`. -/
def lookupMember (q : Option (List String)) (c : String) : Bool :=
  match q with
  | some l => l.contains c
  | none => false

/-- `quorum.getMember(c) !== undefined` where `c : string | undefined`
(an undefined id is never a member). -/
def memberOpt (q : List String) (c : Option String) : Bool :=
  match c with
  | some p => q.contains p
  | none => false

/-- `quorum?.getMember(c ?? "") !== undefined` — the pattern used in
telemetry details when the pending id may be undefined. -/
def inQuorumDefault (q : Option (List String)) (c : Option String) : Bool :=
  lookupMember q (c.getD "")

/-- `client = quorumClients?.getMember(this._clientId)` (present iff the
client id is set and a member of the quorum). -/
def quorumClient (env : Env) (s : HandlerState) : Option String :=
  match s.clientId with
  | some c => if lookupMember env.quorum c then some c else none
  | none => none

/-- The promotion condition of `applyForConnectedState`, in source order:
`pendingClientId !== clientId && pendingClientId !== undefined &&
quorumClients.getMember(pendingClientId) !== undefined && !waitingForLeaveOp`. -/
def promoteGate (q : List String) (s : HandlerState) : Bool :=
  decide (s.pendingClientId ≠ s.clientId) &&
  s.pendingClientId.isSome &&
  memberOpt q s.pendingClientId &&
  !s.prevClientLeftTimer

/-- `private setConnectionState(value, reason?)`.  The source is only ever
called with `Disconnected` or `Connected`; the generic body is embedded. -/
def setConnectionState (value : ConnectionState) (reason : Option String)
    (env : Env) (s : HandlerState) : StepResult :=
  if s.connectionState = value then
    -- already in the desired state: exit early
    ⟨s, [.errorEvent "setConnectionStateSame"], true⟩
  else
    let oldState := s.connectionState
    let s1 : HandlerState := { s with connectionState := value }
    let client := quorumClient env s
    match value with
    | .Connected =>
      if oldState ≠ .CatchingUp then
        -- assert 0x1d8 "Should only transition from Connecting state"
        ⟨s1, [], false⟩
      else
        let ev1 : List Event :=
          match client with
          | some c => [.setShouldHaveLeft c]
          | none => []
        ⟨{ s1 with clientId := s1.pendingClientId },
          ev1 ++ [.stateChanged value oldState reason], true⟩
    | .Disconnected =>
      let s2 : HandlerState :=
        { s1 with pendingClientId := none, joinOpTimer := false }
      if client.isSome ∧ env.shouldClientJoinWrite = true ∧
          s2.prevClientLeftTimer = false then
        ⟨{ s2 with
             prevClientLeftTimer := true
             prevClientLeftTimerGen := s2.prevClientLeftTimerGen + 1 },
          [.stateChanged value oldState reason], true⟩
      else
        ⟨s2, [.noWaitOnDisconnected client.isSome s2.prevClientLeftTimer
                env.shouldClientJoinWrite,
              .stateChanged value oldState reason], true⟩
    | .CatchingUp =>
      ⟨s1, [.stateChanged value oldState reason], true⟩

/-- `private applyForConnectedState(source)`. -/
def applyForConnectedState (source : ApplySource) (env : Env)
    (s : HandlerState) : StepResult :=
  match env.quorum with
  | none =>
    -- assert 0x236 "In all cases it should be already installed"
    ⟨s, [], false⟩
  | some q =>
    if s.prevClientLeftTimer = true ∧ ¬ memberOpt q s.clientId = true then
      -- assert 0x2e2 "Must only wait for leave message when clientId in quorum"
      ⟨s, [], false⟩
    else if promoteGate q s then
      let ev1 : List Event :=
        if s.waitEvent then [.waitSpanEnd source.str] else []
      let r := setConnectionState .Connected none env s
      ⟨r.state, ev1 ++ r.events, r.ok⟩
    else
      ⟨s, [.connectedStateRejected
             (if source = .timeout then "error" else "generic")
             source.str s.pendingClientId s.clientId s.prevClientLeftTimer
             (inQuorumDefault env.quorum s.pendingClientId)], true⟩

/-- `public receivedConnectEvent(connectionMode, details)`. -/
def receivedConnectEvent (mode : ConnectionMode) (detailsClientId : String)
    (env : Env) (s : HandlerState) : StepResult :=
  let oldState := s.connectionState
  let s1 : HandlerState := { s with connectionState := .CatchingUp }
  let writeConnection := mode = ConnectionMode.write
  if env.shouldClientJoinWrite = true ∧ ¬writeConnection then
    -- assert 0x30a "shouldClientJoinWrite should imply this is a writeConnection"
    ⟨s1, [], false⟩
  else if s1.prevClientLeftTimer = true ∧ ¬writeConnection then
    -- assert 0x2a6 "waitingForLeaveOp should imply writeConnection"
    ⟨s1, [], false⟩
  else
    let s2 : HandlerState := { s1 with pendingClientId := some detailsClientId }
    let ev1 : List Event := [.stateChanged .CatchingUp oldState none]
    if writeConnection ∧ lookupMember env.quorum detailsClientId = false then
      -- waitingForJoinOp: startJoinOpTimer (assert 0x234 "has joinOpTimer")
      if s2.joinOpTimer then ⟨s2, ev1, false⟩
      else ⟨{ s2 with joinOpTimer := true }, ev1, true⟩
    else if s2.prevClientLeftTimer = false then
      let r := setConnectionState .Connected none env s2
      ⟨r.state, ev1 ++ r.events, r.ok⟩
    else
      ⟨s2, ev1, true⟩

/-- `public receivedDisconnectEvent(reason)`. -/
def receivedDisconnectEvent (reason : String) (env : Env)
    (s : HandlerState) : StepResult :=
  setConnectionState .Disconnected (some reason) env s

/-- `private receivedAddMemberEvent(clientId)` — the quorum `addMember`
listener registered by `initProtocol`. -/
def receivedAddMemberEvent (clientId : String) (env : Env)
    (s : HandlerState) : StepResult :=
  if s.pendingClientId = some clientId then
    let p1 : HandlerState × List Event :=
      if s.joinOpTimer then ({ s with joinOpTimer := false }, [])
      else (s, [.connectionIssue "ReceivedJoinOp"])
    let p2 : HandlerState × List Event :=
      if p1.1.prevClientLeftTimer then
        ({ p1.1 with waitEvent := true }, [.waitSpanStart])
      else (p1.1, [])
    let r := applyForConnectedState .addMemberEvent env p2.1
    ⟨r.state, p1.2 ++ p2.2 ++ r.events, r.ok⟩
  else ⟨s, [], true⟩

/-- `private receivedRemoveMemberEvent(clientId)` — the quorum `removeMember`
listener registered by `initProtocol`. -/
def receivedRemoveMemberEvent (clientId : String) (env : Env)
    (s : HandlerState) : StepResult :=
  if s.clientId = some clientId then
    applyForConnectedState .removeMemberEvent env
      { s with prevClientLeftTimer := false }
  else ⟨s, [], true⟩

/-- `public containerSaved()`. -/
def containerSaved (env : Env) (s : HandlerState) : StepResult :=
  if s.prevClientLeftTimer then
    applyForConnectedState .containerSaved env
      { s with prevClientLeftTimer := false }
  else ⟨s, [], true⟩

/-- The body of the `joinOpTimer` callback (constructor, second `Timer`). -/
def joinOpTimerCallback (env : Env) (s : HandlerState) : StepResult :=
  if s.connectionState ≠ .CatchingUp then ⟨s, [], true⟩
  else
    ⟨s, [.noJoinOpIssue env.quorum.isSome s.pendingClientId
           (inQuorumDefault env.quorum s.pendingClientId)
           s.prevClientLeftTimer], true⟩

/-- The body of the `prevClientLeftTimer` callback (constructor, first
`Timer`): assert 0x2ac then `applyForConnectedState("timeout")`. -/
def prevClientLeftTimerCallback (env : Env) (s : HandlerState) : StepResult :=
  if s.connectionState = .Connected then ⟨s, [], false⟩
  else applyForConnectedState .timeout env s

/-- A normal firing of the one-shot `joinOpTimer`: `hasTimer` is cleared
before the callback body runs. -/
def joinOpTimerFire (env : Env) (s : HandlerState) : StepResult :=
  joinOpTimerCallback env { s with joinOpTimer := false }

/-- A normal firing of the one-shot `prevClientLeftTimer`. -/
def prevClientLeftTimerFire (env : Env) (s : HandlerState) : StepResult :=
  prevClientLeftTimerCallback env { s with prevClientLeftTimer := false }

/-- `public initProtocol(protocol)`: registering the quorum listeners is
modelled by the `Reachable` steps; the protocol quorum `q` is read directly. -/
def initProtocol (q : List String) (_env : Env) (s : HandlerState) : StepResult :=
  if memberOpt q s.clientId = true then
    ⟨{ s with
         prevClientLeftTimer := true
         prevClientLeftTimerGen := s.prevClientLeftTimerGen + 1 }, [], true⟩
  else ⟨s, [], true⟩

/-- `public dispose()`: assert 0x2a5 "join timer", then clear the leave timer. -/
def dispose (s : HandlerState) : StepResult :=
  if s.joinOpTimer then ⟨s, [], false⟩
  else ⟨{ s with prevClientLeftTimer := false }, [], true⟩

/-- The state built by the constructor: `Disconnected`, optional initial
client id, no pending id, both timers unarmed, no wait span. -/
def initialState (clientId : Option String) : HandlerState :=
  ⟨.Disconnected, clientId, none, false, 0, false, false⟩

/-- States reachable through non-throwing executions of the public event
entry points, the quorum listeners, and the timer machinery (normal firings
require the timer to be armed; `Late` steps model callbacks already queued
when the timer was cancelled). -/
inductive Reachable : HandlerState → Prop where
  | init (cid : Option String) : Reachable (initialState cid)
  | initProtocolStep {s : HandlerState} (q : List String) (env : Env) :
      Reachable s → (initProtocol q env s).ok = true →
      Reachable (initProtocol q env s).state
  | connect {s : HandlerState} (mode : ConnectionMode) (cid : String) (env : Env) :
      Reachable s → (receivedConnectEvent mode cid env s).ok = true →
      Reachable (receivedConnectEvent mode cid env s).state
  | disconnect {s : HandlerState} (reason : String) (env : Env) :
      Reachable s → (receivedDisconnectEvent reason env s).ok = true →
      Reachable (receivedDisconnectEvent reason env s).state
  | addMember {s : HandlerState} (cid : String) (env : Env) :
      Reachable s → (receivedAddMemberEvent cid env s).ok = true →
      Reachable (receivedAddMemberEvent cid env s).state
  | removeMember {s : HandlerState} (cid : String) (env : Env) :
      Reachable s → (receivedRemoveMemberEvent cid env s).ok = true →
      Reachable (receivedRemoveMemberEvent cid env s).state
  | saved {s : HandlerState} (env : Env) :
      Reachable s → (containerSaved env s).ok = true →
      Reachable (containerSaved env s).state
  | joinFire {s : HandlerState} (env : Env) :
      Reachable s → s.joinOpTimer = true →
      (joinOpTimerFire env s).ok = true →
      Reachable (joinOpTimerFire env s).state
  | joinLate {s : HandlerState} (env : Env) :
      Reachable s → (joinOpTimerCallback env s).ok = true →
      Reachable (joinOpTimerCallback env s).state
  | leaveFire {s : HandlerState} (env : Env) :
      Reachable s → s.prevClientLeftTimer = true →
      (prevClientLeftTimerFire env s).ok = true →
      Reachable (prevClientLeftTimerFire env s).state
  | leaveLate {s : HandlerState} (env : Env) :
      Reachable s → (prevClientLeftTimerCallback env s).ok = true →
      Reachable (prevClientLeftTimerCallback env s).state
  | disposeStep {s : HandlerState} :
      Reachable s → (dispose s).ok = true → Reachable (dispose s).state

/-- The legal transitions of the spec's §3 DFA, `dfaEdge old new`. -/
def dfaEdge : ConnectionState → ConnectionState → Bool
  | .Disconnected, .CatchingUp => true
  | .CatchingUp, .Connected => true
  | .CatchingUp, .Disconnected => true
  | .Connected, .Disconnected => true
  | _, _ => false

/-- Inductive invariant of the handler: pending id is absent while
Disconnected; after promotion (while Connected) the pending id is present and
equal to the client id; the join-op timer is never armed while Disconnected. -/
def Inv (s : HandlerState) : Prop :=
  (s.connectionState = .Disconnected → s.pendingClientId = none) ∧
  (s.connectionState = .Connected →
    s.pendingClientId.isSome = true ∧ s.pendingClientId = s.clientId) ∧
  (s.joinOpTimer = true → s.connectionState ≠ .Disconnected)

/-- All `connectionStateChanged` emissions of a step are edges of the §3 DFA
out of the pre-state, never into `CatchingUp`, and into `Connected` only from
`CatchingUp`; on a non-throwing run the new value is the post-state. -/
def eventsOnDfa (oldState : ConnectionState) (r : StepResult) : Prop :=
  ∀ v o reason, Event.stateChanged v o reason ∈ r.events →
    dfaEdge o v = true ∧ o = oldState ∧ v ≠ .CatchingUp ∧
    (v = .Connected → o = .CatchingUp) ∧
    (r.ok = true → v = r.state.connectionState)

/-- The step `r` taken from state `s` armed the leave-wait timer. -/
def armsLeaveTimer (s : HandlerState) (r : StepResult) : Prop :=
  s.prevClientLeftTimer = false ∧ r.state.prevClientLeftTimer = true

/-- Invariant I1 as claimed: in every reachable state in which both ids are
present, they differ. -/
def ClaimI1 : Prop :=
  ∀ s : HandlerState, Reachable s → ∀ c p : String, s.clientId = some c →
    s.pendingClientId = some p → c ≠ p

/-- Invariant I5 as claimed: every arming of the leave-wait timer (by
disconnect or by `initProtocol`) happens only when the client id is present,
is a member of the quorum, and `shouldClientJoinWrite()` is true. -/
def ClaimI5 : Prop :=
  ∀ s : HandlerState, Reachable s →
    (∀ env : Env, ∀ reason : String,
      armsLeaveTimer s (receivedDisconnectEvent reason env s) →
      (quorumClient env s).isSome = true ∧ env.shouldClientJoinWrite = true) ∧
    (∀ q : List String, ∀ env : Env,
      armsLeaveTimer s (initProtocol q env s) →
      memberOpt q s.clientId = true ∧ env.shouldClientJoinWrite = true)

/-!
The `ConnectionStateCatchup` adapter.  Its own fields are the cached
`_connectionState` and the `catchUpMonitor`; the registered one-shot
`caughtUp` listener is tracked as a flag.  Forwarding a transition to
`this.inputs.connectionStateChanged` and creating/disposing the monitor are
the recorded effects.
-/

structure GateState where
  cachedState : ConnectionState
  hasMonitor : Bool
  listenerArmed : Bool
deriving DecidableEq, Repr

inductive GateEvent where
  /-- `inputs.connectionStateChanged(value, oldState, reason)` -/
  | forwarded (value oldState : ConnectionState) (reason : Option String)
  | monitorCreated
  | monitorDisposed
deriving DecidableEq, Repr

structure GateResult where
  state : GateState
  events : List GateEvent
  ok : Bool
deriving DecidableEq, Repr

/-- `ConnectionStateCatchup.connectionStateChanged(value, oldState, reason)` —
the interception of the inner handler's emissions. -/
def gateConnectionStateChanged (value oldState : ConnectionState)
    (reason : Option String) (g : GateState) : GateResult :=
  match value with
  | .Connected =>
    -- assert "connectivity transitions"; assert "catchUpMonitor should always be set"
    if g.cachedState ≠ .CatchingUp then ⟨g, [], false⟩
    else if g.hasMonitor = false then ⟨g, [], false⟩
    else ⟨{ g with listenerArmed := true }, [], true⟩
  | .Disconnected =>
    let g1 : GateState :=
      if g.hasMonitor then
        { g with hasMonitor := false, listenerArmed := false }
      else g
    let ev1 : List GateEvent := if g.hasMonitor then [.monitorDisposed] else []
    ⟨{ g1 with cachedState := .Disconnected },
      ev1 ++ [.forwarded .Disconnected oldState reason], true⟩
  | .CatchingUp =>
    -- assert "connectivity transitions"; assert "catchUpMonitor should be gone"
    if g.cachedState ≠ .Disconnected then ⟨g, [], false⟩
    else if g.hasMonitor then ⟨g, [], false⟩
    else ⟨{ g with hasMonitor := true, cachedState := .CatchingUp },
           [.monitorCreated, .forwarded .CatchingUp oldState reason], true⟩

/-- `ConnectionStateCatchup.transitionToConnectedState` — the `caughtUp`
listener; `innerState` is `this.pimpl.connectionState` at firing time. -/
def transitionToConnectedState (innerState : ConnectionState)
    (g : GateState) : GateResult :=
  if innerState ≠ .Connected then ⟨g, [], false⟩
  else if g.cachedState ≠ .CatchingUp then ⟨g, [], false⟩
  else ⟨{ g with cachedState := .Connected, listenerArmed := false },
         [.forwarded .Connected .CatchingUp (some "caught up")], true⟩

/-!  Concrete runs used as witnesses. -/

def envWrite : Env := ⟨some [], true⟩

def envRead : Env := ⟨some [], false⟩

/-- A write connection before its join op: `CatchingUp`, pending `"c2"`,
join-op timer armed. -/
def stateCatchingUp : HandlerState :=
  (receivedConnectEvent .write "c2" envWrite (initialState none)).state

/-- A clean read connect: `Connected` with `clientId = pendingClientId = "c1"`. -/
def stateConnectedR : HandlerState :=
  (receivedConnectEvent .read "c1" envRead (initialState none)).state

@[simp]
lemma memberOpt_none (q : List String) : memberOpt q none = false := rfl

@[simp]
lemma memberOpt_some (q : List String) (c : String) :
    memberOpt q (some c) = q.contains c := rfl

lemma promoteGate_eq_true (q : List String) (s : HandlerState) :
    promoteGate q s = true ↔
      s.pendingClientId ≠ s.clientId ∧ s.pendingClientId.isSome = true ∧
      memberOpt q s.pendingClientId = true ∧ s.prevClientLeftTimer = false := by
  simp [promoteGate, and_assoc]

/-- When the promotion gate holds, the invariant forces the state to be
`CatchingUp` (Disconnected has no pending id, Connected has pending = client). -/
lemma gate_catchingUp (q : List String) (s : HandlerState) (h : Inv s)
    (hg : promoteGate q s = true) : s.connectionState = .CatchingUp := by
  obtain ⟨h1, h2, _⟩ := h
  rw [promoteGate_eq_true] at hg
  obtain ⟨hne, hsome, _, _⟩ := hg
  cases hc : s.connectionState with
  | Disconnected => rw [h1 hc] at hsome; simp at hsome
  | CatchingUp => rfl
  | Connected => exact absurd (h2 hc).2 hne

lemma setConnectionState_same (value : ConnectionState) (reason : Option String)
    (env : Env) (s : HandlerState) (h : s.connectionState = value) :
    setConnectionState value reason env s =
      ⟨s, [.errorEvent "setConnectionStateSame"], true⟩ := by
  simp [setConnectionState, h]

lemma setConnectionState_connected (reason : Option String) (env : Env)
    (s : HandlerState) (h : s.connectionState = .CatchingUp) :
    setConnectionState .Connected reason env s =
      ⟨{ s with connectionState := .Connected, clientId := s.pendingClientId },
        (match quorumClient env s with
         | some c => [.setShouldHaveLeft c]
         | none => []) ++ [.stateChanged .Connected .CatchingUp reason],
        true⟩ := by
  simp [setConnectionState, h]

lemma setConnectionState_disconnected_arm (reason : Option String) (env : Env)
    (s : HandlerState) (h : s.connectionState ≠ .Disconnected)
    (hc : (quorumClient env s).isSome = true)
    (hw : env.shouldClientJoinWrite = true)
    (ht : s.prevClientLeftTimer = false) :
    setConnectionState .Disconnected reason env s =
      ⟨{ s with
           connectionState := .Disconnected
           pendingClientId := none
           joinOpTimer := false
           prevClientLeftTimer := true
           prevClientLeftTimerGen := s.prevClientLeftTimerGen + 1 },
        [.stateChanged .Disconnected s.connectionState reason], true⟩ := by
  simp [setConnectionState, h, hc, hw, ht]

lemma setConnectionState_disconnected_noarm (reason : Option String) (env : Env)
    (s : HandlerState) (h : s.connectionState ≠ .Disconnected)
    (hno : ¬((quorumClient env s).isSome = true ∧
             env.shouldClientJoinWrite = true ∧ s.prevClientLeftTimer = false)) :
    setConnectionState .Disconnected reason env s =
      ⟨{ s with
           connectionState := .Disconnected
           pendingClientId := none
           joinOpTimer := false },
        [.noWaitOnDisconnected (quorumClient env s).isSome s.prevClientLeftTimer
           env.shouldClientJoinWrite,
         .stateChanged .Disconnected s.connectionState reason], true⟩ := by
  simp only [setConnectionState]
  rw [if_neg h]
  split
  · next hcond => exact absurd (by simpa using hcond) hno
  · rfl

/-- Promotion branch of `applyForConnectedState`: when the gate passes, the
leave-wait assert passes automatically (`!waitingForLeaveOp` is a conjunct). -/
lemma applyForConnectedState_promote (source : ApplySource) (env : Env)
    (q : List String) (s : HandlerState) (hq : env.quorum = some q)
    (hg : promoteGate q s = true) :
    applyForConnectedState source env s =
      (let ev1 : List Event :=
        if s.waitEvent then [.waitSpanEnd source.str] else []
       let r := setConnectionState .Connected none env s
       ⟨r.state, ev1 ++ r.events, r.ok⟩) := by
  have ht : s.prevClientLeftTimer = false := ((promoteGate_eq_true q s).1 hg).2.2.2
  simp [applyForConnectedState, hq, ht, hg]

lemma applyForConnectedState_reject (source : ApplySource) (env : Env)
    (q : List String) (s : HandlerState) (hq : env.quorum = some q)
    (hpre : ¬(s.prevClientLeftTimer = true ∧ ¬ memberOpt q s.clientId = true))
    (hg : promoteGate q s = false) :
    applyForConnectedState source env s =
      ⟨s, [.connectedStateRejected
             (if source = .timeout then "error" else "generic")
             source.str s.pendingClientId s.clientId s.prevClientLeftTimer
             (inQuorumDefault env.quorum s.pendingClientId)], true⟩ := by
  simp [applyForConnectedState, hq, hpre, hg]
  intro h
  by_contra hm
  exact hpre ⟨h, hm⟩

/-- Preservation of `Inv` by `setConnectionState`, under the conditions the
source establishes at each call site of `setConnectionState(Connected)`. -/
lemma inv_setConnectionState (value : ConnectionState) (reason : Option String)
    (env : Env) (s : HandlerState) (h : Inv s)
    (hp : value = .Connected →
      s.pendingClientId.isSome = true ∧ s.connectionState = .CatchingUp) :
    Inv (setConnectionState value reason env s).state := by
  by_cases h1 : s.connectionState = value
  · simpa [setConnectionState_same value reason env s h1] using h
  · cases value with
    | Connected =>
      obtain ⟨hsome, hcu⟩ := hp rfl
      rw [setConnectionState_connected reason env s hcu]
      refine ⟨by simp, fun _ => ⟨by simpa using hsome, by simp⟩, fun hj => by simp⟩
    | Disconnected =>
      by_cases h2 : (quorumClient env s).isSome = true ∧
          env.shouldClientJoinWrite = true ∧ s.prevClientLeftTimer = false
      · rw [setConnectionState_disconnected_arm reason env s h1 h2.1 h2.2.1 h2.2.2]
        exact ⟨fun _ => by simp, by simp, by simp⟩
      · rw [setConnectionState_disconnected_noarm reason env s h1 h2]
        exact ⟨fun _ => by simp, by simp, by simp⟩
    | CatchingUp =>
      simp only [setConnectionState]
      rw [if_neg h1]
      exact ⟨by simp, by simp, fun _ => by simp⟩

lemma inv_applyForConnectedState (source : ApplySource) (env : Env)
    (s : HandlerState) (h : Inv s) :
    Inv (applyForConnectedState source env s).state := by
  cases hq : env.quorum with
  | none => simpa [applyForConnectedState, hq] using h
  | some q =>
    by_cases hpre : s.prevClientLeftTimer = true ∧ ¬ memberOpt q s.clientId = true
    · simpa [applyForConnectedState, hq, hpre] using h
    · by_cases hg : promoteGate q s = true
      · rw [applyForConnectedState_promote source env q s hq hg]
        have hcu := gate_catchingUp q s h hg
        have hsome := ((promoteGate_eq_true q s).1 hg).2.1
        simpa using inv_setConnectionState .Connected none env s h
          (fun _ => ⟨hsome, hcu⟩)
      · rw [applyForConnectedState_reject source env q s hq hpre
            (by simpa using hg)]
        exact h

lemma inv_receivedConnectEvent (mode : ConnectionMode) (cid : String)
    (env : Env) (s : HandlerState) :
    Inv (receivedConnectEvent mode cid env s).state := by
  simp only [receivedConnectEvent]
  split
  · exact ⟨by simp, by simp, fun _ => by simp⟩
  · split
    · exact ⟨by simp, by simp, fun _ => by simp⟩
    · split
      · split
        · exact ⟨by simp, by simp, fun _ => by simp⟩
        · exact ⟨by simp, by simp, fun _ => by simp⟩
      · split
        · refine
            (inv_setConnectionState .Connected none env _ ?_ (fun _ => ⟨by simp, by simp⟩))
          exact ⟨by simp, by simp, fun _ => by simp⟩
        · exact ⟨by simp, by simp, fun _ => by simp⟩

lemma inv_receivedAddMemberEvent (cid : String) (env : Env) (s : HandlerState)
    (h : Inv s) : Inv (receivedAddMemberEvent cid env s).state := by
  simp only [receivedAddMemberEvent]
  split
  · next hpend =>
    refine inv_applyForConnectedState .addMemberEvent env _ ?_
    obtain ⟨h1, h2, h3⟩ := h
    split
    · split
      · exact ⟨by simpa using h1, by simpa using h2, by simp⟩
      · exact ⟨by simpa using h1, by simpa using h2, by simp⟩
    · split
      · exact ⟨by simpa using h1, by simpa using h2, by simpa using h3⟩
      · exact ⟨h1, h2, h3⟩
  · exact h

lemma inv_timerClear (s : HandlerState) (h : Inv s) :
    Inv { s with prevClientLeftTimer := false } := by
  obtain ⟨h1, h2, h3⟩ := h
  exact ⟨by simpa using h1, by simpa using h2, by simpa using h3⟩

lemma inv_receivedRemoveMemberEvent (cid : String) (env : Env)
    (s : HandlerState) (h : Inv s) :
    Inv (receivedRemoveMemberEvent cid env s).state := by
  simp only [receivedRemoveMemberEvent]
  split
  · exact inv_applyForConnectedState .removeMemberEvent env _ (inv_timerClear s h)
  · exact h

lemma inv_containerSaved (env : Env) (s : HandlerState) (h : Inv s) :
    Inv (containerSaved env s).state := by
  simp only [containerSaved]
  split
  · exact inv_applyForConnectedState .containerSaved env _ (inv_timerClear s h)
  · exact h

lemma inv_joinOpTimerCallback (env : Env) (s : HandlerState) (h : Inv s) :
    Inv (joinOpTimerCallback env s).state := by
  simp only [joinOpTimerCallback]
  split
  · exact h
  · exact h

lemma inv_prevClientLeftTimerCallback (env : Env) (s : HandlerState)
    (h : Inv s) : Inv (prevClientLeftTimerCallback env s).state := by
  simp only [prevClientLeftTimerCallback]
  split
  · exact h
  · exact inv_applyForConnectedState .timeout env s h

/-- Every reachable state satisfies the inductive invariant. -/
theorem reachable_inv {s : HandlerState} (h : Reachable s) : Inv s := by
  induction h with
  | init cid => exact ⟨fun _ => rfl, by simp [initialState], by simp [initialState]⟩
  | initProtocolStep q env _ _ ih =>
    simp only [initProtocol]
    split
    · obtain ⟨h1, h2, h3⟩ := ih
      exact ⟨by simpa using h1, by simpa using h2, by simpa using h3⟩
    · exact ih
  | connect mode cid env _ _ _ => exact inv_receivedConnectEvent mode cid env _
  | disconnect reason env _ _ ih =>
    exact inv_setConnectionState .Disconnected (some reason) env _ ih
      (by simp)
  | addMember cid env _ _ ih => exact inv_receivedAddMemberEvent cid env _ ih
  | removeMember cid env _ _ ih =>
    exact inv_receivedRemoveMemberEvent cid env _ ih
  | saved env _ _ ih => exact inv_containerSaved env _ ih
  | joinFire env _ _ _ ih =>
    refine inv_joinOpTimerCallback env _ ?_
    obtain ⟨h1, h2, h3⟩ := ih
    exact ⟨by simpa using h1, by simpa using h2, by simp⟩
  | joinLate env _ _ ih => exact inv_joinOpTimerCallback env _ ih
  | leaveFire env _ _ _ ih =>
    exact inv_prevClientLeftTimerCallback env _ (inv_timerClear _ ih)
  | leaveLate env _ _ ih => exact inv_prevClientLeftTimerCallback env _ ih
  | disposeStep _ _ ih =>
    simp only [dispose]
    split
    · exact ih
    · exact inv_timerClear _ ih

lemma setConnectionState_connected_bad (reason : Option String) (env : Env)
    (s : HandlerState) (h1 : s.connectionState ≠ .Connected)
    (h2 : s.connectionState ≠ .CatchingUp) :
    setConnectionState .Connected reason env s =
      ⟨{ s with connectionState := .Connected }, [], false⟩ := by
  simp [setConnectionState, h1, h2]

/-- `setConnectionState(Connected)` never touches the leave-wait timer. -/
lemma setConnectionState_connected_leaveTimer (reason : Option String)
    (env : Env) (s : HandlerState) :
    (setConnectionState .Connected reason env s).state.prevClientLeftTimer =
      s.prevClientLeftTimer ∧
    (setConnectionState .Connected reason env s).state.prevClientLeftTimerGen =
      s.prevClientLeftTimerGen := by
  by_cases h1 : s.connectionState = .Connected
  · rw [setConnectionState_same _ reason env s h1]; exact ⟨rfl, rfl⟩
  · by_cases h2 : s.connectionState = .CatchingUp
    · rw [setConnectionState_connected reason env s h2]; exact ⟨rfl, rfl⟩
    · rw [setConnectionState_connected_bad reason env s h1 h2]; exact ⟨rfl, rfl⟩

/-- `applyForConnectedState` never touches the leave-wait timer. -/
lemma applyForConnectedState_leaveTimer (source : ApplySource) (env : Env)
    (s : HandlerState) :
    (applyForConnectedState source env s).state.prevClientLeftTimer =
      s.prevClientLeftTimer ∧
    (applyForConnectedState source env s).state.prevClientLeftTimerGen =
      s.prevClientLeftTimerGen := by
  cases hq : env.quorum with
  | none => simp [applyForConnectedState, hq]
  | some q =>
    by_cases hpre : s.prevClientLeftTimer = true ∧ ¬ memberOpt q s.clientId = true
    · simp [applyForConnectedState, hq, hpre]
    · by_cases hg : promoteGate q s = true
      · rw [applyForConnectedState_promote source env q s hq hg]
        exact setConnectionState_connected_leaveTimer none env s
      · rw [applyForConnectedState_reject source env q s hq hpre
            (by simpa using hg)]
        exact ⟨rfl, rfl⟩

/-- `receivedConnectEvent` never touches the leave-wait timer. -/
lemma receivedConnectEvent_leaveTimer (mode : ConnectionMode) (cid : String)
    (env : Env) (s : HandlerState) :
    (receivedConnectEvent mode cid env s).state.prevClientLeftTimer =
      s.prevClientLeftTimer ∧
    (receivedConnectEvent mode cid env s).state.prevClientLeftTimerGen =
      s.prevClientLeftTimerGen := by
  simp only [receivedConnectEvent]
  split
  · exact ⟨rfl, rfl⟩
  · split
    · exact ⟨rfl, rfl⟩
    · split
      · split
        · exact ⟨rfl, rfl⟩
        · exact ⟨rfl, rfl⟩
      · split
        · simpa using setConnectionState_connected_leaveTimer none env _
        · exact ⟨rfl, rfl⟩

/-- `receivedAddMemberEvent` never touches the leave-wait timer. -/
lemma receivedAddMemberEvent_leaveTimer (cid : String) (env : Env)
    (s : HandlerState) :
    (receivedAddMemberEvent cid env s).state.prevClientLeftTimer =
      s.prevClientLeftTimer ∧
    (receivedAddMemberEvent cid env s).state.prevClientLeftTimerGen =
      s.prevClientLeftTimerGen := by
  simp only [receivedAddMemberEvent]
  split
  · split
    · split
      · exact ⟨(applyForConnectedState_leaveTimer .addMemberEvent env _).1,
               (applyForConnectedState_leaveTimer .addMemberEvent env _).2⟩
      · exact ⟨(applyForConnectedState_leaveTimer .addMemberEvent env _).1,
               (applyForConnectedState_leaveTimer .addMemberEvent env _).2⟩
    · split
      · exact ⟨(applyForConnectedState_leaveTimer .addMemberEvent env _).1,
               (applyForConnectedState_leaveTimer .addMemberEvent env _).2⟩
      · exact ⟨(applyForConnectedState_leaveTimer .addMemberEvent env _).1,
               (applyForConnectedState_leaveTimer .addMemberEvent env _).2⟩
  · exact ⟨rfl, rfl⟩

lemma reachable_stateCatchingUp : Reachable stateCatchingUp :=
  Reachable.connect .write "c2" envWrite (Reachable.init none) (by decide)

lemma reachable_stateConnectedR : Reachable stateConnectedR :=
  Reachable.connect .read "c1" envRead (Reachable.init none) (by decide)

/-- C7: calling `receivedDisconnectEvent` while already `Disconnected` only
emits the `setConnectionStateSame` error event; the state (connection state,
client ids, both timers) is returned unchanged and no transition is emitted. -/
theorem claim_C7 (reason : String) (env : Env) (s : HandlerState)
    (h : s.connectionState = .Disconnected) :
    receivedDisconnectEvent reason env s =
      ⟨s, [.errorEvent "setConnectionStateSame"], true⟩ :=
  setConnectionState_same .Disconnected (some reason) env s h

theorem claim_C7_witness :
    (initialState none).connectionState = .Disconnected ∧
    receivedDisconnectEvent "lost" ⟨none, false⟩ (initialState none) =
      ⟨initialState none, [.errorEvent "setConnectionStateSame"], true⟩ :=
  ⟨rfl, claim_C7 "lost" ⟨none, false⟩ (initialState none) rfl⟩

/-- C3 as claimed (Invariant I1): in every reachable state where both
`clientId` and `pendingClientId` are present they differ.  Refuted: the
promotion to Connected sets `clientId := pendingClientId` without clearing
the pending id, so after a clean read connect both equal `"c1"`. -/
theorem claim_C3_counterexample : ¬ ClaimI1 := by
  intro h
  exact h stateConnectedR reachable_stateConnectedR "c1" "c1"
    (by decide) (by decide) rfl

/-- C3 amended: after promotion the two ids coincide rather than differ: in
every reachable `Connected` state, `pendingClientId` is present and equal to
`clientId` (it is cleared only on Disconnect). -/
theorem claim_C3_amended (s : HandlerState) (h : Reachable s)
    (hc : s.connectionState = .Connected) :
    s.pendingClientId.isSome = true ∧ s.pendingClientId = s.clientId :=
  (reachable_inv h).2.1 hc

theorem claim_C3_amended_witness :
    stateConnectedR.pendingClientId.isSome = true ∧
    stateConnectedR.pendingClientId = stateConnectedR.clientId :=
  claim_C3_amended stateConnectedR reachable_stateConnectedR (by decide)

/-- C6: on a disconnect from a non-Disconnected state the handler arms
`prevClientLeftTimer` iff the current client id is found in the quorum,
`shouldClientJoinWrite()` is true and the timer is not already armed (the
generation counter records the single `restart()`); otherwise it emits the
`noWaitOnDisconnected` diagnostic and the timer is neither cleared nor
restarted (flag and generation both unchanged). -/
theorem claim_C6 (reason : String) (env : Env) (s : HandlerState)
    (h : s.connectionState ≠ .Disconnected) :
    (receivedDisconnectEvent reason env s).ok = true ∧
    (((quorumClient env s).isSome = true ∧ env.shouldClientJoinWrite = true ∧
        s.prevClientLeftTimer = false) →
      (receivedDisconnectEvent reason env s).state.prevClientLeftTimer = true ∧
      (receivedDisconnectEvent reason env s).state.prevClientLeftTimerGen =
        s.prevClientLeftTimerGen + 1 ∧
      (receivedDisconnectEvent reason env s).events =
        [.stateChanged .Disconnected s.connectionState (some reason)]) ∧
    (¬((quorumClient env s).isSome = true ∧ env.shouldClientJoinWrite = true ∧
        s.prevClientLeftTimer = false) →
      (receivedDisconnectEvent reason env s).state.prevClientLeftTimer =
        s.prevClientLeftTimer ∧
      (receivedDisconnectEvent reason env s).state.prevClientLeftTimerGen =
        s.prevClientLeftTimerGen ∧
      (receivedDisconnectEvent reason env s).events =
        [.noWaitOnDisconnected (quorumClient env s).isSome s.prevClientLeftTimer
           env.shouldClientJoinWrite,
         .stateChanged .Disconnected s.connectionState (some reason)]) := by
  refine ⟨?_, ?_, ?_⟩
  · unfold receivedDisconnectEvent
    by_cases hc : (quorumClient env s).isSome = true ∧
        env.shouldClientJoinWrite = true ∧ s.prevClientLeftTimer = false
    · rw [setConnectionState_disconnected_arm (some reason) env s h hc.1 hc.2.1 hc.2.2]
    · rw [setConnectionState_disconnected_noarm (some reason) env s h hc]
  · intro hc
    unfold receivedDisconnectEvent
    rw [setConnectionState_disconnected_arm (some reason) env s h hc.1 hc.2.1 hc.2.2]
    exact ⟨rfl, rfl, rfl⟩
  · intro hc
    unfold receivedDisconnectEvent
    rw [setConnectionState_disconnected_noarm (some reason) env s h hc]
    exact ⟨rfl, rfl, rfl⟩

theorem claim_C6_witness :
    (receivedDisconnectEvent "net" ⟨some ["c1"], true⟩ stateConnectedR).ok = true ∧
    (((quorumClient ⟨some ["c1"], true⟩ stateConnectedR).isSome = true ∧
        (⟨some ["c1"], true⟩ : Env).shouldClientJoinWrite = true ∧
        stateConnectedR.prevClientLeftTimer = false) →
      (receivedDisconnectEvent "net" ⟨some ["c1"], true⟩ stateConnectedR).state.prevClientLeftTimer = true ∧
      (receivedDisconnectEvent "net" ⟨some ["c1"], true⟩ stateConnectedR).state.prevClientLeftTimerGen =
        stateConnectedR.prevClientLeftTimerGen + 1 ∧
      (receivedDisconnectEvent "net" ⟨some ["c1"], true⟩ stateConnectedR).events =
        [.stateChanged .Disconnected stateConnectedR.connectionState (some "net")]) ∧
    (¬((quorumClient ⟨some ["c1"], true⟩ stateConnectedR).isSome = true ∧
        (⟨some ["c1"], true⟩ : Env).shouldClientJoinWrite = true ∧
        stateConnectedR.prevClientLeftTimer = false) →
      (receivedDisconnectEvent "net" ⟨some ["c1"], true⟩ stateConnectedR).state.prevClientLeftTimer =
        stateConnectedR.prevClientLeftTimer ∧
      (receivedDisconnectEvent "net" ⟨some ["c1"], true⟩ stateConnectedR).state.prevClientLeftTimerGen =
        stateConnectedR.prevClientLeftTimerGen ∧
      (receivedDisconnectEvent "net" ⟨some ["c1"], true⟩ stateConnectedR).events =
        [.noWaitOnDisconnected (quorumClient ⟨some ["c1"], true⟩ stateConnectedR).isSome
           stateConnectedR.prevClientLeftTimer
           (⟨some ["c1"], true⟩ : Env).shouldClientJoinWrite,
         .stateChanged .Disconnected stateConnectedR.connectionState (some "net")]) :=
  claim_C6 "net" ⟨some ["c1"], true⟩ stateConnectedR (by decide)

lemma eventsOnDfa_setConnectionState (value : ConnectionState)
    (reason : Option String) (env : Env) (s : HandlerState)
    (hv : value ≠ .CatchingUp) :
    eventsOnDfa s.connectionState (setConnectionState value reason env s) := by
  by_cases h1 : s.connectionState = value
  · intro v o rsn hmem
    rw [setConnectionState_same value reason env s h1] at hmem
    simp at hmem
  · cases value with
    | CatchingUp => exact absurd rfl hv
    | Connected =>
      by_cases h2 : s.connectionState = .CatchingUp
      · rw [setConnectionState_connected reason env s h2]
        intro v o rsn hmem
        have heq : Event.stateChanged v o rsn =
            Event.stateChanged .Connected .CatchingUp reason := by
          rcases List.mem_append.1 hmem with hm | hm
          · exfalso
            cases hqc : quorumClient env s with
            | none => rw [hqc] at hm; simp at hm
            | some c => rw [hqc] at hm; simp at hm
          · simpa using hm
        injection heq with e1 e2 e3
        subst e1; subst e2
        exact ⟨rfl, h2.symm, by decide, fun _ => rfl, fun _ => rfl⟩
      · rw [setConnectionState_connected_bad reason env s h1 h2]
        intro v o rsn hmem
        simp at hmem
    | Disconnected =>
      by_cases h3 : (quorumClient env s).isSome = true ∧
          env.shouldClientJoinWrite = true ∧ s.prevClientLeftTimer = false
      · rw [setConnectionState_disconnected_arm reason env s h1 h3.1 h3.2.1 h3.2.2]
        intro v o rsn hmem
        simp at hmem
        obtain ⟨e1, e2, e3⟩ := hmem
        subst e1; subst e2
        refine ⟨?_, rfl, by decide, fun hc => absurd hc (by decide), fun _ => rfl⟩
        cases hcs : s.connectionState with
        | Disconnected => exact absurd hcs h1
        | CatchingUp => rfl
        | Connected => rfl
      · rw [setConnectionState_disconnected_noarm reason env s h1 h3]
        intro v o rsn hmem
        simp at hmem
        obtain ⟨e1, e2, e3⟩ := hmem
        subst e1; subst e2
        refine ⟨?_, rfl, by decide, fun hc => absurd hc (by decide), fun _ => rfl⟩
        cases hcs : s.connectionState with
        | Disconnected => exact absurd hcs h1
        | CatchingUp => rfl
        | Connected => rfl

lemma eventsOnDfa_prepend (c : ConnectionState) (r : StepResult)
    (pre : List Event)
    (hpre : ∀ v o rsn, Event.stateChanged v o rsn ∈ pre → False)
    (h : eventsOnDfa c r) :
    eventsOnDfa c ⟨r.state, pre ++ r.events, r.ok⟩ := by
  intro v o rsn hmem
  rcases List.mem_append.1 hmem with hm | hm
  · exact (hpre v o rsn hm).elim
  · exact h v o rsn hm

lemma eventsOnDfa_applyForConnectedState (source : ApplySource) (env : Env)
    (s : HandlerState) :
    eventsOnDfa s.connectionState (applyForConnectedState source env s) := by
  cases hq : env.quorum with
  | none =>
    intro v o rsn hmem
    simp [applyForConnectedState, hq] at hmem
  | some q =>
    by_cases hpre : s.prevClientLeftTimer = true ∧ ¬ memberOpt q s.clientId = true
    · intro v o rsn hmem
      simp [applyForConnectedState, hq, hpre] at hmem
    · by_cases hg : promoteGate q s = true
      · rw [applyForConnectedState_promote source env q s hq hg]
        exact eventsOnDfa_prepend s.connectionState
          (setConnectionState .Connected none env s)
          (if s.waitEvent then [Event.waitSpanEnd source.str] else [])
          (by
            intro v o rsn hx
            split at hx
            · simp at hx
            · simp at hx)
          (eventsOnDfa_setConnectionState .Connected none env s (by decide))
      · rw [applyForConnectedState_reject source env q s hq hpre (by simpa using hg)]
        intro v o rsn hmem
        simp at hmem

lemma eventsOnDfa_joinCallback (env : Env) (s : HandlerState) :
    eventsOnDfa s.connectionState (joinOpTimerCallback env s) := by
  intro v o rsn hmem
  simp only [joinOpTimerCallback] at hmem
  split at hmem
  · simp at hmem
  · simp at hmem

lemma eventsOnDfa_leaveCallback (env : Env) (s : HandlerState) :
    eventsOnDfa s.connectionState (prevClientLeftTimerCallback env s) := by
  by_cases h : s.connectionState = .Connected
  · intro v o rsn hmem
    simp [prevClientLeftTimerCallback, h] at hmem
  · simp only [prevClientLeftTimerCallback, if_neg h]
    exact eventsOnDfa_applyForConnectedState .timeout env s

lemma eventsOnDfa_addMember (cid : String) (env : Env) (s : HandlerState) :
    eventsOnDfa s.connectionState (receivedAddMemberEvent cid env s) := by
  by_cases hp : s.pendingClientId = some cid
  · by_cases hj : s.joinOpTimer = true
    · by_cases ht : s.prevClientLeftTimer = true
      · have hshape : receivedAddMemberEvent cid env s =
            ⟨(applyForConnectedState .addMemberEvent env
                { s with joinOpTimer := false, waitEvent := true }).state,
              [Event.waitSpanStart] ++
                (applyForConnectedState .addMemberEvent env
                  { s with joinOpTimer := false, waitEvent := true }).events,
              (applyForConnectedState .addMemberEvent env
                { s with joinOpTimer := false, waitEvent := true }).ok⟩ := by
          simp [receivedAddMemberEvent, hp, hj, ht]
        rw [hshape]
        exact eventsOnDfa_prepend s.connectionState _ [Event.waitSpanStart]
          (by intro v o rsn hx; simp at hx)
          (eventsOnDfa_applyForConnectedState .addMemberEvent env _)
      · have hshape : receivedAddMemberEvent cid env s =
            ⟨(applyForConnectedState .addMemberEvent env
                { s with joinOpTimer := false }).state,
              [] ++
                (applyForConnectedState .addMemberEvent env
                  { s with joinOpTimer := false }).events,
              (applyForConnectedState .addMemberEvent env
                { s with joinOpTimer := false }).ok⟩ := by
          simp [receivedAddMemberEvent, hp, hj, ht]
        rw [hshape]
        exact eventsOnDfa_prepend s.connectionState _ []
          (by intro v o rsn hx; simp at hx)
          (eventsOnDfa_applyForConnectedState .addMemberEvent env _)
    · by_cases ht : s.prevClientLeftTimer = true
      · have hshape : receivedAddMemberEvent cid env s =
            ⟨(applyForConnectedState .addMemberEvent env
                { s with waitEvent := true }).state,
              [Event.connectionIssue "ReceivedJoinOp", Event.waitSpanStart] ++
                (applyForConnectedState .addMemberEvent env
                  { s with waitEvent := true }).events,
              (applyForConnectedState .addMemberEvent env
                { s with waitEvent := true }).ok⟩ := by
          simp [receivedAddMemberEvent, hp, hj, ht]
        rw [hshape]
        exact eventsOnDfa_prepend s.connectionState _
          [Event.connectionIssue "ReceivedJoinOp", Event.waitSpanStart]
          (by intro v o rsn hx; simp at hx)
          (eventsOnDfa_applyForConnectedState .addMemberEvent env _)
      · have hshape : receivedAddMemberEvent cid env s =
            ⟨(applyForConnectedState .addMemberEvent env s).state,
              [Event.connectionIssue "ReceivedJoinOp"] ++
                (applyForConnectedState .addMemberEvent env s).events,
              (applyForConnectedState .addMemberEvent env s).ok⟩ := by
          simp [receivedAddMemberEvent, hp, hj, ht]
        rw [hshape]
        exact eventsOnDfa_prepend s.connectionState _
          [Event.connectionIssue "ReceivedJoinOp"]
          (by intro v o rsn hx; simp at hx)
          (eventsOnDfa_applyForConnectedState .addMemberEvent env s)
  · intro v o rsn hmem
    simp [receivedAddMemberEvent, hp] at hmem

lemma eventsOnDfa_removeMember (cid : String) (env : Env) (s : HandlerState) :
    eventsOnDfa s.connectionState (receivedRemoveMemberEvent cid env s) := by
  by_cases hc : s.clientId = some cid
  · have hshape : receivedRemoveMemberEvent cid env s =
        applyForConnectedState .removeMemberEvent env
          { s with prevClientLeftTimer := false } := by
      simp [receivedRemoveMemberEvent, hc]
    rw [hshape]
    exact eventsOnDfa_applyForConnectedState .removeMemberEvent env _
  · intro v o rsn hmem
    simp [receivedRemoveMemberEvent, hc] at hmem

/-- C8: the join-op timer callback never mutates the handler state; it is a
no-op outside `CatchingUp` (late callback) and in `CatchingUp` it emits only
the `NoJoinOp` diagnostic with the quorum-initialized flag, the pending id,
its quorum membership, and the leave-wait flag.  The leave-timer callback
asserts the state is not `Connected` (0x2ac) and then calls
`applyForConnectedState("timeout")`. -/
theorem claim_C8 (env : Env) (s : HandlerState) :
    (joinOpTimerCallback env s).state = s ∧
    (joinOpTimerCallback env s).ok = true ∧
    (s.connectionState ≠ .CatchingUp →
      (joinOpTimerCallback env s).events = []) ∧
    (s.connectionState = .CatchingUp →
      (joinOpTimerCallback env s).events =
        [.noJoinOpIssue env.quorum.isSome s.pendingClientId
           (inQuorumDefault env.quorum s.pendingClientId)
           s.prevClientLeftTimer]) ∧
    (s.connectionState = .Connected →
      prevClientLeftTimerCallback env s = ⟨s, [], false⟩) ∧
    (s.connectionState ≠ .Connected →
      prevClientLeftTimerCallback env s = applyForConnectedState .timeout env s) := by
  refine ⟨?_, ?_, ?_, ?_, ?_, ?_⟩
  · unfold joinOpTimerCallback
    split
    · rfl
    · rfl
  · unfold joinOpTimerCallback
    split
    · rfl
    · rfl
  · intro h
    simp [joinOpTimerCallback, h]
  · intro h
    simp [joinOpTimerCallback, h]
  · intro h
    simp [prevClientLeftTimerCallback, h]
  · intro h
    simp [prevClientLeftTimerCallback, h]

theorem claim_C8_witness :
    ((joinOpTimerCallback envWrite stateCatchingUp).state = stateCatchingUp ∧
      (joinOpTimerCallback envWrite stateCatchingUp).ok = true ∧
      (stateCatchingUp.connectionState ≠ .CatchingUp →
        (joinOpTimerCallback envWrite stateCatchingUp).events = []) ∧
      (stateCatchingUp.connectionState = .CatchingUp →
        (joinOpTimerCallback envWrite stateCatchingUp).events =
          [.noJoinOpIssue envWrite.quorum.isSome stateCatchingUp.pendingClientId
             (inQuorumDefault envWrite.quorum stateCatchingUp.pendingClientId)
             stateCatchingUp.prevClientLeftTimer]) ∧
      (stateCatchingUp.connectionState = .Connected →
        prevClientLeftTimerCallback envWrite stateCatchingUp = ⟨stateCatchingUp, [], false⟩) ∧
      (stateCatchingUp.connectionState ≠ .Connected →
        prevClientLeftTimerCallback envWrite stateCatchingUp =
          applyForConnectedState .timeout envWrite stateCatchingUp)) :=
  claim_C8 envWrite stateCatchingUp

/-- C4 as claimed (Invariant I5): refuted.  `initProtocol` arms
`prevClientLeftTimer` whenever the initial client id is in the protocol
quorum, without consulting `shouldClientJoinWrite()`: starting from a fresh
handler with initial client id `"c0"` and a quorum containing `"c0"`, the
timer is armed although `shouldClientJoinWrite()` is false. -/
theorem claim_C4_counterexample : ¬ ClaimI5 := by
  intro h
  have h2 := (h (initialState (some "c0")) (Reachable.init (some "c0"))).2
    ["c0"] ⟨none, false⟩ ⟨rfl, by decide⟩
  exact absurd h2.2 (by decide)

/-- C4 amended: `receivedDisconnectEvent` arms the leave-wait timer only when
the client id is present and in the quorum and `shouldClientJoinWrite()` is
true, but `initProtocol` arms it exactly when the initial client id is in the
protocol quorum, regardless of `shouldClientJoinWrite()`; no other operation
of the handler arms the timer. -/
theorem claim_C4_amended (s : HandlerState) :
    (∀ env : Env, ∀ reason : String,
      armsLeaveTimer s (receivedDisconnectEvent reason env s) →
      (quorumClient env s).isSome = true ∧ env.shouldClientJoinWrite = true) ∧
    (∀ q : List String, ∀ env : Env,
      armsLeaveTimer s (initProtocol q env s) ↔
        s.prevClientLeftTimer = false ∧ memberOpt q s.clientId = true) ∧
    (∀ env : Env, ∀ mode : ConnectionMode, ∀ cid : String,
      ¬ armsLeaveTimer s (receivedConnectEvent mode cid env s)) ∧
    (∀ env : Env, ∀ cid : String,
      ¬ armsLeaveTimer s (receivedAddMemberEvent cid env s)) ∧
    (∀ env : Env, ∀ cid : String,
      ¬ armsLeaveTimer s (receivedRemoveMemberEvent cid env s)) ∧
    (∀ env : Env, ¬ armsLeaveTimer s (containerSaved env s)) ∧
    (∀ env : Env, ¬ armsLeaveTimer s (joinOpTimerFire env s)) ∧
    (∀ env : Env, ¬ armsLeaveTimer s (prevClientLeftTimerFire env s)) ∧
    (∀ env : Env, ¬ armsLeaveTimer s (joinOpTimerCallback env s)) ∧
    (∀ env : Env, ¬ armsLeaveTimer s (prevClientLeftTimerCallback env s)) ∧
    ¬ armsLeaveTimer s (dispose s) := by
  refine ⟨?_, ?_, ?_, ?_, ?_, ?_, ?_, ?_, ?_, ?_, ?_⟩
  · intro env reason harm
    obtain ⟨h0, h1⟩ := harm
    by_cases hd : s.connectionState = .Disconnected
    · rw [claim_C7 reason env s hd] at h1
      exact absurd (h0 ▸ h1) (by simp [h0])
    · by_cases hc : (quorumClient env s).isSome = true ∧
          env.shouldClientJoinWrite = true ∧ s.prevClientLeftTimer = false
      · exact ⟨hc.1, hc.2.1⟩
      · exfalso
        unfold receivedDisconnectEvent at h1
        rw [setConnectionState_disconnected_noarm (some reason) env s hd hc] at h1
        simp [h0] at h1
  · intro q env
    constructor
    · intro harm
      obtain ⟨h0, h1⟩ := harm
      refine ⟨h0, ?_⟩
      by_cases hm : memberOpt q s.clientId = true
      · exact hm
      · exfalso
        simp [initProtocol, hm, h0] at h1
    · intro ⟨h0, hm⟩
      exact ⟨h0, by simp [initProtocol, hm]⟩
  · intro env mode cid harm
    exact absurd ((receivedConnectEvent_leaveTimer mode cid env s).1 ▸ harm.2)
      (by simp [harm.1])
  · intro env cid harm
    obtain ⟨h0, h1⟩ := harm
    rw [(receivedAddMemberEvent_leaveTimer cid env s).1] at h1
    exact absurd h1 (by simp [h0])
  · intro env cid harm
    obtain ⟨h0, h1⟩ := harm
    simp only [receivedRemoveMemberEvent] at h1
    split at h1
    · rw [(applyForConnectedState_leaveTimer .removeMemberEvent env _).1] at h1
      simp at h1
    · exact absurd h1 (by simp [h0])
  · intro env harm
    obtain ⟨h0, h1⟩ := harm
    simp only [containerSaved] at h1
    split at h1
    · rw [(applyForConnectedState_leaveTimer .containerSaved env _).1] at h1
      simp at h1
    · exact absurd h1 (by simp [h0])
  · intro env harm
    obtain ⟨h0, h1⟩ := harm
    simp only [joinOpTimerFire, joinOpTimerCallback] at h1
    split at h1
    · exact absurd h1 (by simp [h0])
    · exact absurd h1 (by simp [h0])
  · intro env harm
    obtain ⟨h0, h1⟩ := harm
    simp only [prevClientLeftTimerFire, prevClientLeftTimerCallback] at h1
    split at h1
    · simp at h1
    · rw [(applyForConnectedState_leaveTimer .timeout env _).1] at h1
      simp at h1
  · intro env harm
    obtain ⟨h0, h1⟩ := harm
    simp only [joinOpTimerCallback] at h1
    split at h1
    · exact absurd h1 (by simp [h0])
    · exact absurd h1 (by simp [h0])
  · intro env harm
    obtain ⟨h0, h1⟩ := harm
    simp only [prevClientLeftTimerCallback] at h1
    split at h1
    · exact absurd h1 (by simp [h0])
    · rw [(applyForConnectedState_leaveTimer .timeout env s).1] at h1
      exact absurd h1 (by simp [h0])
  · intro harm
    obtain ⟨h0, h1⟩ := harm
    simp only [dispose] at h1
    split at h1
    · exact absurd h1 (by simp [h0])
    · simp at h1

theorem claim_C4_amended_witness :
    ((quorumClient ⟨some ["c1"], true⟩ stateConnectedR).isSome = true ∧
      (⟨some ["c1"], true⟩ : Env).shouldClientJoinWrite = true) :=
  (claim_C4_amended stateConnectedR).1 ⟨some ["c1"], true⟩ "net"
    ⟨by decide, by decide⟩

/-- C10: `receivedConnectEvent` performs no check of its documented
Disconnected precondition: from any starting state (provided only the two
constructor asserts about write mode pass) it overwrites the pending id with
`details.clientId` and the first emission is the transition
`(CatchingUp, s)`; for a caller in `CatchingUp` or `Connected` that emitted
transition is outside the legal DFA. -/
theorem claim_C10 (mode : ConnectionMode) (cid : String) (env : Env)
    (s : HandlerState)
    (ha : env.shouldClientJoinWrite = true → mode = ConnectionMode.write)
    (hb : s.prevClientLeftTimer = true → mode = ConnectionMode.write) :
    (receivedConnectEvent mode cid env s).state.pendingClientId = some cid ∧
    (receivedConnectEvent mode cid env s).events.head? =
      some (.stateChanged .CatchingUp s.connectionState none) ∧
    (s.connectionState ≠ .Disconnected →
      dfaEdge s.connectionState .CatchingUp = false) := by
  have ha2 : ¬(env.shouldClientJoinWrite = true ∧ ¬(mode = ConnectionMode.write)) :=
    fun h => h.2 (ha h.1)
  have hb2 : ¬(s.prevClientLeftTimer = true ∧ ¬(mode = ConnectionMode.write)) :=
    fun h => h.2 (hb h.1)
  refine ⟨?_, ?_, ?_⟩
  · simp only [receivedConnectEvent]
    rw [if_neg ha2]
    rw [if_neg (by simpa using hb2)]
    split
    · split
      · rfl
      · rfl
    · split
      · rw [setConnectionState_connected none env _ rfl]
      · rfl
  · simp only [receivedConnectEvent]
    rw [if_neg ha2]
    rw [if_neg (by simpa using hb2)]
    split
    · split
      · rfl
      · rfl
    · split
      · rfl
      · rfl
  · intro h
    cases hc : s.connectionState with
    | Disconnected => exact absurd hc h
    | CatchingUp => rfl
    | Connected => rfl

/-- C1: with the quorum installed (assert 0x236) and the asserted leave-wait
precondition (assert 0x2e2), `applyForConnectedState(source)` transitions to
`Connected` iff the pending id is present, differs from the client id, is in
the quorum, and the leave-wait timer is not armed; otherwise it emits exactly
one `connectedStateRejected` event, with category `"error"` iff the source is
`"timeout"` and `"generic"` otherwise, and changes nothing. -/
theorem claim_C1 (source : ApplySource) (env : Env) (q : List String)
    (s : HandlerState) (hr : Reachable s) (hq : env.quorum = some q)
    (hpre : s.prevClientLeftTimer = true → memberOpt q s.clientId = true) :
    ((s.pendingClientId.isSome = true ∧ s.pendingClientId ≠ s.clientId ∧
        memberOpt q s.pendingClientId = true ∧ s.prevClientLeftTimer = false) →
      (applyForConnectedState source env s).ok = true ∧
      (applyForConnectedState source env s).state.connectionState = .Connected ∧
      Event.stateChanged .Connected .CatchingUp none ∈
        (applyForConnectedState source env s).events) ∧
    (¬(s.pendingClientId.isSome = true ∧ s.pendingClientId ≠ s.clientId ∧
        memberOpt q s.pendingClientId = true ∧ s.prevClientLeftTimer = false) →
      applyForConnectedState source env s =
        ⟨s, [.connectedStateRejected
               (if source = .timeout then "error" else "generic")
               source.str s.pendingClientId s.clientId s.prevClientLeftTimer
               (inQuorumDefault env.quorum s.pendingClientId)], true⟩) := by
  constructor
  · intro hfour
    have hg : promoteGate q s = true :=
      (promoteGate_eq_true q s).2 ⟨hfour.2.1, hfour.1, hfour.2.2.1, hfour.2.2.2⟩
    have hcu := gate_catchingUp q s (reachable_inv hr) hg
    rw [applyForConnectedState_promote source env q s hq hg]
    simp only
    rw [setConnectionState_connected none env s hcu]
    refine ⟨rfl, rfl, ?_⟩
    simp
  · intro hnot
    have hg : promoteGate q s = false := by
      rw [Bool.eq_false_iff]
      intro hgt
      obtain ⟨a, b, c, d⟩ := (promoteGate_eq_true q s).1 hgt
      exact hnot ⟨b, a, c, d⟩
    exact applyForConnectedState_reject source env q s hq
      (fun h => h.2 (hpre h.1)) hg

theorem claim_C1_witness :
    (applyForConnectedState .addMemberEvent ⟨some ["c2"], true⟩ stateCatchingUp).ok = true ∧
    (applyForConnectedState .addMemberEvent ⟨some ["c2"], true⟩ stateCatchingUp).state.connectionState = .Connected ∧
    Event.stateChanged .Connected .CatchingUp none ∈
      (applyForConnectedState .addMemberEvent ⟨some ["c2"], true⟩ stateCatchingUp).events :=
  (claim_C1 .addMemberEvent ⟨some ["c2"], true⟩ ["c2"] stateCatchingUp
    reachable_stateCatchingUp rfl (fun h => absurd h (by decide))).1
    ⟨by decide, by decide, by decide, by decide⟩

/-- C5: from a reachable `Disconnected` state, given the two asserted
write-mode implications, `receivedConnectEvent` moves to `CatchingUp`, sets
the pending id, emits `(CatchingUp, Disconnected)`, and then: arms the
join-op timer and returns exactly when the mode is write and the quorum is
absent or lacks the pending id; otherwise returns if the leave-wait timer is
armed, and otherwise reaches `Connected` within the same call. -/
theorem claim_C5 (mode : ConnectionMode) (cid : String) (env : Env)
    (s : HandlerState) (hr : Reachable s)
    (hd : s.connectionState = .Disconnected)
    (ha : env.shouldClientJoinWrite = true → mode = ConnectionMode.write)
    (hb : s.prevClientLeftTimer = true → mode = ConnectionMode.write) :
    (receivedConnectEvent mode cid env s).ok = true ∧
    (receivedConnectEvent mode cid env s).state.pendingClientId = some cid ∧
    ((mode = ConnectionMode.write ∧ lookupMember env.quorum cid = false) →
      (receivedConnectEvent mode cid env s).state.connectionState = .CatchingUp ∧
      (receivedConnectEvent mode cid env s).state.joinOpTimer = true ∧
      (receivedConnectEvent mode cid env s).events =
        [.stateChanged .CatchingUp .Disconnected none]) ∧
    (¬(mode = ConnectionMode.write ∧ lookupMember env.quorum cid = false) →
      (s.prevClientLeftTimer = true →
        (receivedConnectEvent mode cid env s).state.connectionState = .CatchingUp ∧
        (receivedConnectEvent mode cid env s).events =
          [.stateChanged .CatchingUp .Disconnected none]) ∧
      (s.prevClientLeftTimer = false →
        (receivedConnectEvent mode cid env s).state.connectionState = .Connected ∧
        Event.stateChanged .Connected .CatchingUp none ∈
          (receivedConnectEvent mode cid env s).events)) := by
  have ha2 : ¬(env.shouldClientJoinWrite = true ∧ ¬(mode = ConnectionMode.write)) :=
    fun h => h.2 (ha h.1)
  have hb2 : ¬(s.prevClientLeftTimer = true ∧ ¬(mode = ConnectionMode.write)) :=
    fun h => h.2 (hb h.1)
  have hj : s.joinOpTimer = false := by
    cases hx : s.joinOpTimer with
    | false => rfl
    | true => exact absurd hd ((reachable_inv hr).2.2 hx)
  by_cases hw : mode = ConnectionMode.write ∧ lookupMember env.quorum cid = false
  · have hshape : receivedConnectEvent mode cid env s =
        ⟨{ s with
             connectionState := .CatchingUp
             pendingClientId := some cid
             joinOpTimer := true },
          [.stateChanged .CatchingUp s.connectionState none], true⟩ := by
      simp [receivedConnectEvent, ha2, hb2, hw, hj]
    rw [hshape, hd]
    exact ⟨rfl, rfl, fun _ => ⟨rfl, rfl, rfl⟩, fun hnw => absurd hw hnw⟩
  · by_cases ht : s.prevClientLeftTimer = true
    · have hshape : receivedConnectEvent mode cid env s =
          ⟨{ s with
               connectionState := .CatchingUp
               pendingClientId := some cid },
            [.stateChanged .CatchingUp s.connectionState none], true⟩ := by
        have hmw := hb ht
        have hl : lookupMember env.quorum cid = true := by
          cases hx : lookupMember env.quorum cid with
          | true => rfl
          | false => exact absurd ⟨hmw, hx⟩ hw
        simp [receivedConnectEvent, ha2, hb2, ht, hmw, hl]
      rw [hshape, hd]
      refine ⟨rfl, rfl, fun hww => absurd hww hw, fun _ => ⟨fun _ => ⟨rfl, rfl⟩, ?_⟩⟩
      intro hf
      exact absurd ht (by simp [hf])
    · have ht2 : s.prevClientLeftTimer = false := by
        cases hx : s.prevClientLeftTimer with
        | false => rfl
        | true => exact absurd hx ht
      have hshape : receivedConnectEvent mode cid env s =
          (let s2 : HandlerState :=
            { s with connectionState := .CatchingUp, pendingClientId := some cid }
           ⟨(setConnectionState .Connected none env s2).state,
             [Event.stateChanged .CatchingUp s.connectionState none] ++
               (setConnectionState .Connected none env s2).events,
             (setConnectionState .Connected none env s2).ok⟩) := by
        simp [receivedConnectEvent, ha2, hb2, hw, ht2]
      rw [hshape, hd]
      simp only
      rw [setConnectionState_connected none env _ rfl]
      refine ⟨rfl, rfl, fun hww => absurd hww hw, fun _ => ⟨fun hx => absurd hx ht, ?_⟩⟩
      intro _
      exact ⟨rfl, by simp⟩

theorem claim_C5_witness :
    (receivedConnectEvent .write "c2" envWrite (initialState none)).ok = true ∧
    (receivedConnectEvent .write "c2" envWrite (initialState none)).state.pendingClientId = some "c2" ∧
    (receivedConnectEvent .write "c2" envWrite (initialState none)).state.connectionState = .CatchingUp ∧
    (receivedConnectEvent .write "c2" envWrite (initialState none)).state.joinOpTimer = true ∧
    (receivedConnectEvent .write "c2" envWrite (initialState none)).events =
      [.stateChanged .CatchingUp .Disconnected none] := by
  have h := claim_C5 .write "c2" envWrite (initialState none) (Reachable.init none)
    rfl (fun _ => rfl) (fun _ => rfl)
  exact ⟨h.1, h.2.1, h.2.2.1 ⟨rfl, by decide⟩⟩

theorem claim_C10_witness :
    (receivedConnectEvent .read "c9" envRead stateConnectedR).state.pendingClientId = some "c9" ∧
    (receivedConnectEvent .read "c9" envRead stateConnectedR).events.head? =
      some (.stateChanged .CatchingUp stateConnectedR.connectionState none) ∧
    (stateConnectedR.connectionState ≠ .Disconnected →
      dfaEdge stateConnectedR.connectionState .CatchingUp = false) :=
  claim_C10 .read "c9" envRead stateConnectedR
    (fun h => absurd h (by decide)) (fun h => absurd h (by decide))

/-- C2 (P6): from any state, every `connectionStateChanged` emission produced
by an add-member event, a remove-member event, a firing (or late callback) of
either timer, or a disconnect, is an edge of the §3 DFA out of the current
state; in particular none of these ever emits a transition into `CatchingUp`,
and a transition into `Connected` only from `CatchingUp`, so the emitted
sequence is a walk on the DFA. -/
theorem claim_C2 (s : HandlerState) (env : Env) (cid : String)
    (reason : String) :
    eventsOnDfa s.connectionState (receivedAddMemberEvent cid env s) ∧
    eventsOnDfa s.connectionState (receivedRemoveMemberEvent cid env s) ∧
    eventsOnDfa s.connectionState (joinOpTimerFire env s) ∧
    eventsOnDfa s.connectionState (prevClientLeftTimerFire env s) ∧
    eventsOnDfa s.connectionState (joinOpTimerCallback env s) ∧
    eventsOnDfa s.connectionState (prevClientLeftTimerCallback env s) ∧
    eventsOnDfa s.connectionState (receivedDisconnectEvent reason env s) :=
  ⟨eventsOnDfa_addMember cid env s,
   eventsOnDfa_removeMember cid env s,
   eventsOnDfa_joinCallback env { s with joinOpTimer := false },
   eventsOnDfa_leaveCallback env { s with prevClientLeftTimer := false },
   eventsOnDfa_joinCallback env s,
   eventsOnDfa_leaveCallback env s,
   eventsOnDfa_setConnectionState .Disconnected (some reason) env s (by decide)⟩

theorem claim_C2_witness :
    Event.stateChanged .Connected .CatchingUp none ∈
      (receivedAddMemberEvent "c2" ⟨some ["c2"], true⟩ stateCatchingUp).events ∧
    dfaEdge .CatchingUp .Connected = true ∧
    stateCatchingUp.connectionState = .CatchingUp := by
  have h := claim_C2 stateCatchingUp ⟨some ["c2"], true⟩ "c2" "x"
  have hm : Event.stateChanged .Connected .CatchingUp none ∈
      (receivedAddMemberEvent "c2" ⟨some ["c2"], true⟩ stateCatchingUp).events := by
    decide
  exact ⟨hm, (h.1 .Connected .CatchingUp none hm).1,
    ((h.1 .Connected .CatchingUp none hm).2.1).symm⟩

/-- C9: the catch-up gate never forwards an inner `Connected` transition
immediately — its cached external state stays `CatchingUp` and it only arms
the `caughtUp` listener; that listener, when fired, forwards
`(Connected, CatchingUp, "caught up")`; an inner `CatchingUp` transition is
forwarded with a monitor created, and an inner `Disconnected` transition is
forwarded with the monitor disposed. -/
theorem claim_C9 (g : GateState) (oldState : ConnectionState)
    (reason : Option String) :
    ((gateConnectionStateChanged .Connected oldState reason g).ok = true →
      (gateConnectionStateChanged .Connected oldState reason g).events = [] ∧
      (gateConnectionStateChanged .Connected oldState reason g).state.cachedState =
        g.cachedState ∧
      g.cachedState = .CatchingUp ∧
      (gateConnectionStateChanged .Connected oldState reason g).state.listenerArmed =
        true) ∧
    (g.cachedState = .CatchingUp →
      transitionToConnectedState .Connected g =
        ⟨{ g with cachedState := .Connected, listenerArmed := false },
          [.forwarded .Connected .CatchingUp (some "caught up")], true⟩) ∧
    (g.cachedState = .Disconnected → g.hasMonitor = false →
      gateConnectionStateChanged .CatchingUp oldState reason g =
        ⟨{ g with hasMonitor := true, cachedState := .CatchingUp },
          [.monitorCreated, .forwarded .CatchingUp oldState reason], true⟩) ∧
    ((gateConnectionStateChanged .Disconnected oldState reason g).state.hasMonitor =
        false ∧
      GateEvent.forwarded .Disconnected oldState reason ∈
        (gateConnectionStateChanged .Disconnected oldState reason g).events) := by
  refine ⟨?_, ?_, ?_, ?_⟩
  · intro hok
    by_cases h1 : g.cachedState = .CatchingUp
    · by_cases h2 : g.hasMonitor = false
      · exfalso
        simp [gateConnectionStateChanged, h1, h2] at hok
      · simp [gateConnectionStateChanged, h1, h2]
    · exfalso
      simp [gateConnectionStateChanged, h1] at hok
  · intro h1
    simp [transitionToConnectedState, h1]
  · intro h1 h2
    simp [gateConnectionStateChanged, h1, h2]
  · by_cases hm : g.hasMonitor = true
    · simp [gateConnectionStateChanged, hm]
    · simp only [Bool.not_eq_true] at hm
      simp [gateConnectionStateChanged, hm]

theorem claim_C9_witness :
    transitionToConnectedState .Connected ⟨.CatchingUp, true, true⟩ =
      ⟨⟨.Connected, true, false⟩,
        [.forwarded .Connected .CatchingUp (some "caught up")], true⟩ :=
  (claim_C9 ⟨.CatchingUp, true, true⟩ .Disconnected none).2.1 rfl

end FluidConn
